import Mathlib

/-!
Shallow embedding of the Playwright page-object helpers of the
tierIV-qa-automation repository (`pages/BasePage.ts`,
`pages/FooterComponent.ts`, `pages/HomePage.ts`), together with theorems
settling the specification claims about them.

Browser interaction is modelled by explicit environments: an environment
records, for each attempt, whether the raced click / tab-open wait fired
and whether the opened tab reached `domcontentloaded` within its timeout.
Each helper returns the ordered list of observable steps it performs
(scrolls, fixed waits, consent dismissal, raced clicks, load waits)
together with its result, so that attempt counts, backoff delays and
error propagation can be stated exactly.
-/

namespace Tier4QA

/-! ### BasePage.goto (BasePage.ts lines 20-32) -/

/-- `this.baseURL = 'https://tier4.jp'` set in the `BasePage` constructor. -/
def baseURL : String := "https://tier4.jp"

/-- URL computed by `BasePage.goto(path)`:
`path.startsWith('http') ? path : baseURL + path`. -/
def gotoUrl (path : String) : String :=
  if path.startsWith "http" then path else baseURL ++ path

/-! ### BasePage.getText (BasePage.ts lines 65-69) -/

/-- JavaScript `String.prototype.trim`: remove leading and trailing
whitespace. -/
def jsTrim (s : String) : String :=
  String.mk (((s.data.dropWhile Char.isWhitespace).reverse.dropWhile
    Char.isWhitespace).reverse)

/-- `BasePage.getText`: `text?.trim() || ''` applied to the element's
`textContent()` result (`none` models a `null` text content; the `||`
replaces a falsy — i.e. empty — trimmed string by `''`). -/
def getText (textContent : Option String) : String :=
  match textContent.map jsTrim with
  | none => ""
  | some t => if t = "" then "" else t

/-! ### HomePage.getCurrentLanguage (HomePage.ts lines 289-300) -/

/-- JavaScript `String.prototype.includes` on character lists: the pattern
occurs as a contiguous run somewhere in the string. -/
def includesAux (pat : List Char) : List Char → Bool
  | [] => pat.isEmpty
  | c :: rest => List.isPrefixOf pat (c :: rest) || includesAux pat rest

/-- `s.includes(pat)` of JavaScript. -/
def strIncludes (s pat : String) : Bool :=
  includesAux pat.data s.data

/-- `HomePage.getCurrentLanguage`, deciding on `this.getCurrentUrl()`:
`/en` → `'en'`, else `/cn` or `/zh` → `'cn'`, else `/ja` → `'ja'`,
else the default `'ja'`. -/
def getCurrentLanguage (url : String) : String :=
  if strIncludes url "/en" then "en"
  else if strIncludes url "/cn" || strIncludes url "/zh" then "cn"
  else if strIncludes url "/ja" then "ja"
  else "ja"

/-- The three-branch description used by the claim about
`getCurrentLanguage` (spec side of the comparison): `'en'` when the URL
contains `/en`, else `'cn'` when it contains `/cn` or `/zh`, else `'ja'`. -/
def languageOfUrlClaim (url : String) : String :=
  if strIncludes url "/en" then "en"
  else if strIncludes url "/cn" || strIncludes url "/zh" then "cn"
  else "ja"

/-! ### Errors thrown by the browser-automation layer -/

/-- Errors that the modelled Playwright calls can throw. The code of
`FooterComponent.ts` never wraps them: there is no constructor for a
terminal "failed after N attempts" error because no such error is built
anywhere in `src/pages`. -/
inductive PwError
  | timeoutWaitingPage (ms : Nat)
  | timeoutWaitingLoad (ms : Nat)
  | clickFailed
  | visibilityCheckFailed
deriving DecidableEq

/-! ### BasePage.dismissCookieConsent (BasePage.ts lines 205-220) -/

/-- Possible states of the page when `dismissCookieConsent` runs: the
consent button is absent (`isVisible` resolves `false`), present and
clickable, present but the click throws, or the visibility check itself
throws. -/
inductive ConsentOutcome
  | dialogAbsent
  | dialogVisibleClickOk
  | dialogVisibleClickThrows
  | visibilityCheckThrows
deriving DecidableEq

/-- The body of `dismissCookieConsent` without its `try/catch`: looks for
the accept button, clicks it when visible, and propagates whatever the
underlying calls throw. -/
def dismissCookieConsentBody : ConsentOutcome → Except PwError Unit
  | .dialogAbsent => .ok ()
  | .dialogVisibleClickOk => .ok ()
  | .dialogVisibleClickThrows => .error .clickFailed
  | .visibilityCheckThrows => .error .visibilityCheckFailed

/-- `BasePage.dismissCookieConsent`: the whole body runs inside
`try { ... } catch { /- No cookie dialog or already dismissed -/ }`,
so every thrown error is swallowed and the method resolves normally. -/
def dismissCookieConsent (o : ConsentOutcome) : Except PwError Unit :=
  match dismissCookieConsentBody o with
  | .ok _ => .ok ()
  | .error _ => .ok ()

/-! ### FooterComponent new-tab click operations
(FooterComponent.ts: `clickMediaKitLink` lines 242-253, `clickLinkedInLink`
lines 277-289, and the five analogous social-link methods) -/

/-- Readiness states of `Page.waitForLoadState`. -/
inductive ReadyState
  | domcontentloaded
  | load
  | networkidle
deriving DecidableEq

/-- The tab handle (`Page`) returned by a new-tab click operation;
`ready` records the readiness state the handle was awaited to. -/
structure TabHandle where
  ready : ReadyState
deriving DecidableEq

/-- Outcome the environment assigns to one raced attempt:
`opened loadOk` — the `page` event fired and the click completed within
the tab-open timeout, and `loadOk` tells whether the new tab reached
`domcontentloaded` within the load timeout; `noTab` — the race failed
(event timeout or click error). -/
inductive AttemptResult
  | opened (loadOk : Bool)
  | noTab
deriving DecidableEq

/-- The footer links with a dedicated new-tab click method. -/
inductive FooterLink
  | mediaKit
  | linkedIn
  | twitter
  | youtube
  | facebook
  | instagram
  | github
deriving DecidableEq

/-- Observable steps performed by the footer methods: `scrollFooter` is
`scrollToElement(this.footer)`, `waitMs n` is `this.wait(n)`,
`dismissConsent` is the `dismissCookieConsent()` call, `raceClick l t` is
`Promise.all([context().waitForEvent('page', {timeout: t}), click(l)])`,
and `loadWait t` is `newPage.waitForLoadState('domcontentloaded',
{timeout: t})`. -/
inductive Ev
  | scrollFooter
  | waitMs (ms : Nat)
  | dismissConsent
  | raceClick (link : FooterLink) (timeoutMs : Nat)
  | loadWait (timeoutMs : Nat)
deriving DecidableEq

/-- One new-tab click method of `FooterComponent` (the seven methods
`clickMediaKitLink`, `clickLinkedInLink`, ..., `clickGithubLink` are
textually identical up to the locator). The method runs
`scrollToFooter()` (scroll + 500 ms wait), `dismissCookieConsent()`,
`wait(500)`, then a single raced click with a 30000 ms tab-open timeout;
on a tab it runs `waitForLoadState('domcontentloaded', {timeout: 30000})`
and returns the page. There is no loop: any failure propagates at once. -/
def clickNewTabOp (link : FooterLink) (env : Nat → AttemptResult) :
    List Ev × Except PwError TabHandle :=
  let setup : List Ev := [.scrollFooter, .waitMs 500, .dismissConsent, .waitMs 500]
  match env 1 with
  | .noTab =>
      (setup ++ [.raceClick link 30000], .error (.timeoutWaitingPage 30000))
  | .opened false =>
      (setup ++ [.raceClick link 30000, .loadWait 30000],
        .error (.timeoutWaitingLoad 30000))
  | .opened true =>
      (setup ++ [.raceClick link 30000, .loadWait 30000],
        .ok ⟨.domcontentloaded⟩)

/-- `FooterComponent.clickLinkedInLink` (lines 277-289). -/
def clickLinkedInLink : (Nat → AttemptResult) → List Ev × Except PwError TabHandle :=
  clickNewTabOp .linkedIn

/-- `FooterComponent.clickMediaKitLink` (lines 242-253). -/
def clickMediaKitLink : (Nat → AttemptResult) → List Ev × Except PwError TabHandle :=
  clickNewTabOp .mediaKit

/-- An event is an attempt exactly when it is the raced click. -/
def isAttemptEv : Ev → Bool
  | .raceClick _ _ => true
  | _ => false

/-- Number of attempts a trace contains. -/
def attemptCount (tr : List Ev) : Nat :=
  tr.countP isAttemptEv

/-- A backoff delay in the documented retry pattern is a wait of
`1000 * attempt` ms, hence at least 1000 ms; the fixed settle waits of the
code are 500 ms. -/
def isBackoffEv : Ev → Bool
  | .waitMs ms => decide (1000 ≤ ms)
  | _ => false

/-- Every raced click and every load wait in a trace uses a 30000 ms
timeout. -/
def timeoutOk : Ev → Bool
  | .raceClick _ t => t == 30000
  | .loadWait t => t == 30000
  | _ => true

/-- Environment in which no attempt ever sees the tab-open signal. -/
def envAllFail : Nat → AttemptResult := fun _ => .noTab

/-- Environment in which every attempt succeeds and the tab loads. -/
def envAllOk : Nat → AttemptResult := fun _ => .opened true

/-- Environment in which attempt 1 fails and every later attempt would
succeed. -/
def envSecondTry : Nat → AttemptResult :=
  fun k => if k = 1 then .noTab else .opened true

/-! ### Theorems settling the claims -/

/-- C7: `dismissCookieConsent` never raises an error to its caller: for
every page state — dialog absent, dialog present, click throwing, or the
visibility check throwing — it completes as a no-op. -/
theorem dismissCookieConsent_never_throws (o : ConsentOutcome) :
    dismissCookieConsent o = Except.ok () := by
  cases o <;> rfl

/-- C8: `BasePage.goto` navigates to `path` itself when `path` starts with
`"http"` and otherwise to `"https://tier4.jp" ++ path`; with the default
empty path it navigates to exactly `"https://tier4.jp"`. -/
theorem gotoUrl_spec :
    (∀ path : String,
        gotoUrl path =
          if path.startsWith "http" then path else "https://tier4.jp" ++ path)
    ∧ gotoUrl "" = "https://tier4.jp" := by
  constructor
  · intro path
    rfl
  · decide

/-- C9: `BasePage.getText` always returns a string (never null): the text
content trimmed of leading and trailing whitespace, and the empty string
when the text content is null or consists only of whitespace. -/
theorem getText_spec :
    (∀ tc : Option String, getText tc = jsTrim (tc.getD ""))
    ∧ getText none = "" ∧ getText (some "   ") = ""
    ∧ getText (some "  hello  ") = "hello" := by
  refine ⟨?_, by decide, by decide, by decide⟩
  intro tc
  cases tc with
  | none => decide
  | some s =>
      show (if jsTrim s = "" then "" else jsTrim s) = jsTrim s
      by_cases h : jsTrim s = ""
      · simp [h]
      · simp [h]

/-- C10: `HomePage.getCurrentLanguage` returns exactly one of `"en"`,
`"cn"`, `"ja"`, and agrees with the claimed precedence order: `"en"` when
the URL contains `/en`, else `"cn"` when it contains `/cn` or `/zh`, else
`"ja"` (including as the default when no language segment occurs). -/
theorem getCurrentLanguage_spec (url : String) :
    getCurrentLanguage url = languageOfUrlClaim url
    ∧ (getCurrentLanguage url = "en" ∨ getCurrentLanguage url = "cn"
        ∨ getCurrentLanguage url = "ja") := by
  unfold getCurrentLanguage languageOfUrlClaim
  split_ifs <;> simp

/-- C1: when every attempt fails, `clickLinkedInLink` does not raise a
terminal error naming the action and an exhausted attempt count of 3:
it performs exactly one attempt and propagates the raw 30000 ms tab-open
timeout error of that single attempt directly to the caller (no
`PwError` constructor for an after-N-attempts error even exists in the
code). -/
theorem clickLinkedInLink_allFail_raw_error_after_one_attempt :
    clickLinkedInLink envAllFail =
      ([Ev.scrollFooter, Ev.waitMs 500, Ev.dismissConsent, Ev.waitMs 500,
        Ev.raceClick FooterLink.linkedIn 30000],
       Except.error (PwError.timeoutWaitingPage 30000))
    ∧ attemptCount (clickLinkedInLink envAllFail).1 = 1 := by
  exact ⟨rfl, rfl⟩

/-- C2: when attempt 1 fails and an attempt 2 would succeed,
`clickMediaKitLink` never makes the second attempt and inserts no
backoff delay: it fails at once with the first attempt's raw timeout
error, after exactly one attempt and zero waits of 1000 ms or more. -/
theorem clickMediaKitLink_no_second_attempt :
    (clickMediaKitLink envSecondTry).2 =
      Except.error (PwError.timeoutWaitingPage 30000)
    ∧ attemptCount (clickMediaKitLink envSecondTry).1 = 1
    ∧ (clickMediaKitLink envSecondTry).1.countP isBackoffEv = 0 := by
  exact ⟨rfl, rfl, rfl⟩

/-- C3 counterexample: even when the click and the tab-open signal
succeed on attempt 1, `clickLinkedInLink` does not perform zero
scroll-into-view and dialog-dismissal steps — both occur, and they occur
before the first (and only) attempt. -/
theorem clickLinkedInLink_dismissal_before_first_attempt :
    (clickLinkedInLink envAllOk).2 = Except.ok ⟨ReadyState.domcontentloaded⟩
    ∧ Ev.dismissConsent ∈ (clickLinkedInLink envAllOk).1
    ∧ Ev.scrollFooter ∈ (clickLinkedInLink envAllOk).1
    ∧ attemptCount ((clickLinkedInLink envAllOk).1.takeWhile
        (fun e => !isAttemptEv e)) = 0
    ∧ Ev.dismissConsent ∈ (clickLinkedInLink envAllOk).1.takeWhile
        (fun e => !isAttemptEv e) := by
  refine ⟨rfl, ?_, ?_, rfl, ?_⟩ <;> decide

/-- C3 amended: if the click and the tab-open signal succeed on
attempt 1, the operation returns a tab handle after exactly one attempt
with zero backoff delays and with no recovery step after the attempt;
but a scroll-into-view and a best-effort dialog dismissal always run as
fixed setup before attempt 1 (there is no between-attempts recovery,
the code making only a single attempt). -/
theorem clickNewTab_firstTrySuccess (link : FooterLink)
    (env : Nat → AttemptResult) (h : env 1 = AttemptResult.opened true) :
    (clickNewTabOp link env).2 = Except.ok ⟨ReadyState.domcontentloaded⟩
    ∧ attemptCount (clickNewTabOp link env).1 = 1
    ∧ (clickNewTabOp link env).1.countP isBackoffEv = 0
    ∧ (clickNewTabOp link env).1 =
      [Ev.scrollFooter, Ev.waitMs 500, Ev.dismissConsent, Ev.waitMs 500,
       Ev.raceClick link 30000, Ev.loadWait 30000] := by
  have h2 : clickNewTabOp link env =
      ([Ev.scrollFooter, Ev.waitMs 500, Ev.dismissConsent, Ev.waitMs 500,
        Ev.raceClick link 30000, Ev.loadWait 30000],
       Except.ok ⟨ReadyState.domcontentloaded⟩) := by
    unfold clickNewTabOp
    rw [h]
    try rfl
  rw [h2]
  exact ⟨rfl, rfl, rfl, rfl⟩

/-- Witness for the amended C3 theorem at the LinkedIn link in the
all-success environment. -/
theorem clickNewTab_firstTrySuccess_witness :
    envAllOk 1 = AttemptResult.opened true
    ∧ ((clickNewTabOp FooterLink.linkedIn envAllOk).2 =
        Except.ok ⟨ReadyState.domcontentloaded⟩
      ∧ attemptCount (clickNewTabOp FooterLink.linkedIn envAllOk).1 = 1
      ∧ (clickNewTabOp FooterLink.linkedIn envAllOk).1.countP isBackoffEv = 0
      ∧ (clickNewTabOp FooterLink.linkedIn envAllOk).1 =
        [Ev.scrollFooter, Ev.waitMs 500, Ev.dismissConsent, Ev.waitMs 500,
         Ev.raceClick FooterLink.linkedIn 30000, Ev.loadWait 30000]) :=
  ⟨rfl, clickNewTab_firstTrySuccess FooterLink.linkedIn envAllOk rfl⟩

/-- C4: every invocation of a new-tab click operation produces exactly
one of two outcomes — a fully loaded tab handle (readiness
`domcontentloaded`) or a single error — never both and never neither;
no partially loaded handle is ever returned. -/
theorem clickNewTab_outcome_dichotomy (link : FooterLink)
    (env : Nat → AttemptResult) :
    ((clickNewTabOp link env).2.isOk = true
      ∧ (clickNewTabOp link env).2 = Except.ok ⟨ReadyState.domcontentloaded⟩)
    ∨ ((clickNewTabOp link env).2.isOk = false
      ∧ ((clickNewTabOp link env).2 =
            Except.error (PwError.timeoutWaitingPage 30000)
        ∨ (clickNewTabOp link env).2 =
            Except.error (PwError.timeoutWaitingLoad 30000))) := by
  cases h : env 1 with
  | noTab =>
      have h2 : (clickNewTabOp link env).2 =
          Except.error (PwError.timeoutWaitingPage 30000) := by
        unfold clickNewTabOp
        rw [h]
        try rfl
      rw [h2]
      exact Or.inr ⟨rfl, Or.inl rfl⟩
  | opened loadOk =>
      cases loadOk with
      | false =>
          have h2 : (clickNewTabOp link env).2 =
              Except.error (PwError.timeoutWaitingLoad 30000) := by
            unfold clickNewTabOp
            rw [h]
            try rfl
          rw [h2]
          exact Or.inr ⟨rfl, Or.inr rfl⟩
      | true =>
          have h2 : (clickNewTabOp link env).2 =
              Except.ok ⟨ReadyState.domcontentloaded⟩ := by
            unfold clickNewTabOp
            rw [h]
            try rfl
          rw [h2]
          exact Or.inl ⟨rfl, rfl⟩

/-- C5: whenever a new-tab click operation returns a tab handle, the
handle was awaited to the `domcontentloaded` readiness state before
being returned, by a load wait bounded by the 30000 ms initial-load
timeout appearing in the performed steps. -/
theorem clickNewTab_success_returns_loaded_tab (link : FooterLink)
    (env : Nat → AttemptResult) (h : TabHandle)
    (hok : (clickNewTabOp link env).2 = Except.ok h) :
    h.ready = ReadyState.domcontentloaded
    ∧ Ev.loadWait 30000 ∈ (clickNewTabOp link env).1 := by
  cases henv : env 1 with
  | noTab => simp [clickNewTabOp, henv] at hok
  | opened loadOk =>
      cases loadOk with
      | false => simp [clickNewTabOp, henv] at hok
      | true =>
          simp only [clickNewTabOp, henv] at hok ⊢
          cases hok
          constructor
          · rfl
          · simp

/-- Witness for the C5 theorem at the Media Kit link in the all-success
environment. -/
theorem clickNewTab_success_returns_loaded_tab_witness :
    (clickNewTabOp FooterLink.mediaKit envAllOk).2 =
      Except.ok ⟨ReadyState.domcontentloaded⟩
    ∧ ((⟨ReadyState.domcontentloaded⟩ : TabHandle).ready =
        ReadyState.domcontentloaded
      ∧ Ev.loadWait 30000 ∈ (clickNewTabOp FooterLink.mediaKit envAllOk).1) :=
  ⟨rfl, clickNewTab_success_returns_loaded_tab FooterLink.mediaKit envAllOk
    ⟨ReadyState.domcontentloaded⟩ rfl⟩

/-- C6: in every environment, every raced click (tab-open wait) and every
initial-load wait performed by a new-tab click operation uses a 30000 ms
timeout. -/
theorem clickNewTab_timeouts (link : FooterLink)
    (env : Nat → AttemptResult) :
    (clickNewTabOp link env).1.all timeoutOk = true := by
  cases h : env 1 with
  | noTab => simp [clickNewTabOp, h, timeoutOk]
  | opened loadOk =>
      cases loadOk with
      | false => simp [clickNewTabOp, h, timeoutOk]
      | true => simp [clickNewTabOp, h, timeoutOk]

end Tier4QA
